import Mathlib

/-!
Shallow embedding of the `co2_tracker` package (jesper-p/codecarbon).

The repository ships `co2_tracker/config.py` and the test-suite
`tests/test_co2_tracker.py`; the tracker engine itself
(`co2_tracker/co2_tracker.py` and `co2_tracker/external.py`) is not part of
the available sources, so the engine is modelled from the specification
(spec.md), faithful to its words.  Rational numbers stand in for Python's
double-precision floats: the properties verified here are structural
(products, sums, call counts, state transitions), not rounding behaviour.
-/

namespace CO2

/-- From `src/co2_tracker/config.py`: the static configuration dictionary
`cfg` of `AppConfig` (URL of the geo-IP service and paths of the static
emissions-factor resource files). -/
structure AppConfig where
  geo_js_url : String
  cloud_emissions_path : String
  usa_emissions_data_path : String
  global_energy_mix_data_path : String
deriving Repr, DecidableEq

/-- From `src/co2_tracker/config.py`: the literal `cfg` dictionary. -/
def defaultAppConfig : AppConfig :=
  { geo_js_url := "https://get.geojs.io/v1/ip/geo.json"
    cloud_emissions_path := "data/cloud/impact.csv"
    usa_emissions_data_path := "data/private_infra/2016/us_emissions.json"
    global_energy_mix_data_path := "data/private_infra/2016/global_energy_mix.json" }

/-- Modelled from the spec: `TrackerConfig` (spec §3) — immutable run
parameters of one tracker (`co2_tracker.py` is absent from the sources). -/
structure TrackerConfig where
  measure_power_secs : ℚ
  save_to_file : Bool
  output_dir : String
  project_name : String
  offline : Bool
  country : Option String
deriving Repr, DecidableEq

/-- Modelled from the spec: `CloudMetadata` (spec §3) — detected cloud
execution context; both fields null when not on a recognized cloud
(`external.py` is absent from the sources). -/
structure CloudMetadata where
  provider : Option String
  region : Option String
deriving Repr, DecidableEq

/-- Modelled from the spec: `GeoMetadata` (spec §3) — location resolved by
the geo-IP lookup (`external.py` is absent from the sources). -/
structure GeoMetadata where
  country : String
  region : Option String
deriving Repr, DecidableEq

/-- Modelled from the spec: the network failures of the geo-IP lookup the
spec names (timeout, connection error; spec §4.3, §5). -/
inductive NetErr where
  | timeout
  | connError
deriving Repr, DecidableEq

/-- Modelled from the spec: the fatal error conditions of spec §7
(invalid lifecycle call, offline mode without a country,
`RegionNotFoundError`). -/
inductive TrackError where
  | invalidState
  | missingCountry
  | regionNotFound
deriving Repr, DecidableEq

/-- Modelled from the spec: the external collaborators of spec §6, fixed for
one run — cloud-metadata probe result, geo-IP lookup outcome, GPU telemetry
availability, instantaneous component power draws (watts), and the two
static emissions-factor tables (kg CO2 per kWh). -/
structure Env where
  cloud : CloudMetadata
  geo : Except NetErr GeoMetadata
  gpu_available : Bool
  cpu_power_w : ℚ
  gpu_power_w : ℚ
  ram_power_w : ℚ
  cloud_emissions : String → String → Option ℚ
  country_energy_mix : String → Option ℚ

/-- Modelled from the spec: the resolved execution location of one run —
cloud-hosted, a country (offline override or geo-IP), or unknown
(degraded mode after a network failure; spec §4.3). -/
inductive Location where
  | onCloud (provider region : String)
  | inCountry (country : String)
  | unknown
deriving Repr, DecidableEq

/-- Modelled from the spec: step 1 of the resolver (spec §4.3) — the run is
cloud-hosted exactly when the probe returns a non-null provider and a
non-null region. -/
def onRecognizedCloud (c : CloudMetadata) : Option (String × String) :=
  match c.provider, c.region with
  | some p, some r => some (p, r)
  | _, _ => none

/-- Modelled from the spec: the location resolver of spec §4.3, executed once
at `start()`.  Priority: cloud metadata, then the offline override (failing
fast when no country is configured), then the online geo-IP lookup, whose
network failures are caught and yield the unknown location (degraded mode).
The second component counts HTTP requests issued (the geo-IP lookup is the
only network call). -/
def resolveLocation (cfg : TrackerConfig) (env : Env) :
    Except TrackError (Location × Nat) :=
  match onRecognizedCloud env.cloud with
  | some (p, r) => .ok (.onCloud p r, 0)
  | none =>
    if cfg.offline then
      match cfg.country with
      | some c => .ok (.inCountry c, 0)
      | none => .error .missingCountry
    else
      match env.geo with
      | .ok g => .ok (.inCountry g.country, 1)
      | .error _ => .ok (.unknown, 1)

/-- Modelled from the spec: the emissions-factor lookup of spec §4.3 — cloud
table keyed by (provider, region), country energy-mix table keyed by country;
a resolved key with no entry raises `RegionNotFoundError`; the unknown
location leaves the factor unresolved (`none`), signaling degraded mode. -/
def lookupFactor (env : Env) : Location → Except TrackError (Option ℚ)
  | .onCloud p r =>
    match env.cloud_emissions p r with
    | some f => .ok (some f)
    | none => .error .regionNotFound
  | .inCountry c =>
    match env.country_energy_mix c with
    | some f => .ok (some f)
    | none => .error .regionNotFound
  | .unknown => .ok none

/-- Modelled from the spec: the tracker lifecycle states of spec §4.1. -/
inductive TrackerState where
  | idle
  | running
  | stopped
deriving Repr, DecidableEq

/-- Modelled from the spec: the tracker instance (spec §3, §4.1) — its
configuration, lifecycle state, the location and emissions factor resolved at
`start()` (factor `some none` = resolved-as-unknown, degraded), the energy
accumulator (kWh), and instrumentation counters for HTTP requests issued and
GPU-telemetry availability checks performed. -/
structure Tracker where
  cfg : TrackerConfig
  state : TrackerState
  location : Option Location
  factor : Option (Option ℚ)
  energy_kwh : ℚ
  http_calls : Nat
  gpu_availability_checks : Nat
  gpu_available : Bool
deriving Repr, DecidableEq

/-- Modelled from the spec: tracker construction — `IDLE`, accumulator zero,
nothing resolved yet. -/
def Tracker.init (cfg : TrackerConfig) : Tracker :=
  { cfg := cfg
    state := .idle
    location := none
    factor := none
    energy_kwh := 0
    http_calls := 0
    gpu_availability_checks := 0
    gpu_available := false }

/-- Modelled from the spec: `start()` (spec §4.1, §4.3) — only legal from
`IDLE`; resolves the location and its emissions factor once, checks GPU
telemetry availability once, and transitions to `RUNNING`.  Resolution
failures (offline without a country, `RegionNotFoundError`) abort the start
and nothing is tracked. -/
def Tracker.start (t : Tracker) (env : Env) : Except TrackError Tracker :=
  match t.state with
  | .idle =>
    match resolveLocation t.cfg env with
    | .error e => .error e
    | .ok (loc, calls) =>
      match lookupFactor env loc with
      | .error e => .error e
      | .ok f =>
        .ok { t with
              state := .running
              location := some loc
              factor := some f
              http_calls := t.http_calls + calls
              gpu_availability_checks := t.gpu_availability_checks + 1
              gpu_available := env.gpu_available }
  | .running => .error .invalidState
  | .stopped => .error .invalidState

/-- Modelled from the spec: combined instantaneous power draw of one sampling
tick (spec §4.2) — CPU plus RAM, plus GPU only when GPU telemetry was found
available at start (otherwise the GPU contributes zero). -/
def Env.combined_power_w (env : Env) (gpuAvail : Bool) : ℚ :=
  env.cpu_power_w + (if gpuAvail then env.gpu_power_w else 0) + env.ram_power_w

/-- Modelled from the spec: one sampler tick (spec §4.2) — integrates the
combined power over the actual elapsed wall-clock seconds since the previous
tick (never the nominal interval) and adds the increment, converted from
watt-seconds to kWh, to the accumulator.  The GPU availability flag cached at
start is reused; no re-probing happens on a tick. -/
def Tracker.tick (t : Tracker) (env : Env) (elapsed_secs : ℚ) : Tracker :=
  { t with energy_kwh :=
      t.energy_kwh + env.combined_power_w t.gpu_available * elapsed_secs / 3600000 }

/-- Modelled from the spec: the background sampler loop (spec §4.2) — a run
whose successive ticks observed the given elapsed times. -/
def Tracker.runTicks (t : Tracker) (env : Env) : List ℚ → Tracker
  | [] => t
  | d :: ds => (t.tick env d).runTicks env ds

/-- Modelled from the spec: the final CO2 mass of spec §4.4 —
`total_co2_kg = total_energy_kwh * emissions_factor_kg_per_kwh` when a factor
was resolved; unresolved (`none`) in degraded mode. -/
def stopEmissions (t : Tracker) : Option ℚ :=
  match t.factor with
  | some (some f) => some (t.energy_kwh * f)
  | _ => none

/-- Modelled from the spec: `stop()` (spec §4.1, §4.4) — only legal from
`RUNNING`; performs one final synchronous tick covering the last partial
interval, computes the CO2 product, and transitions to `STOPPED`. -/
def Tracker.stop (t : Tracker) (env : Env) (final_elapsed : ℚ) :
    Except TrackError (Tracker × Option ℚ) :=
  match t.state with
  | .running =>
    let t2 := t.tick env final_elapsed
    .ok ({ t2 with state := .stopped }, stopEmissions t2)
  | .idle => .error .invalidState
  | .stopped => .error .invalidState

/-- Modelled from the spec: the header line written once to a fresh
`<project_name>.emissions` file (spec §6; exact column layout is an
implementation choice). -/
def headerLine : String := "project_name,duration_secs,total_energy_kwh,total_co2_kg"

/-- Modelled from the spec: one record line of the output file (spec §3, §6)
— project name, duration, total energy, total CO2 (blank when unresolved). -/
def recordLine (project : String) (duration energy : ℚ) (co2 : Option ℚ) :
    String :=
  project ++ "," ++ toString duration ++ "," ++ toString energy ++ "," ++
    (match co2 with
     | some c => toString c
     | none => "")

/-- Modelled from the spec: appending a record to the output file (spec §6) —
append-only, one record per `stop()`, with the header line written once when
the file is new.  The file is modelled as its list of lines. -/
def persistRecord (file : List String) (record : String) : List String :=
  match file with
  | [] => [headerLine, record]
  | _ => file ++ [record]

/-- Modelled from the spec: the outcome of one decorated call (spec §4.5, §7)
— either `start()` raised (a configuration failure; the wrapped function
never ran), or the run completed, carrying the wrapped function's own
result (value or propagated exception) and the emissions estimate. -/
inductive CallResult (E A : Type) where
  | configFailure (e : TrackError)
  | completed (r : Except E A) (em : Option ℚ)
deriving Repr

/-- Modelled from the spec: the decorator `track_co2` applied to one call
(spec §4.5) — construct a tracker, `start()`, invoke the wrapped function,
`stop()` on every path including failure, persist when `save_to_file` is
set, and only then surface the wrapped function's result unchanged.  `ticks`
and `final_elapsed` are the elapsed times the sampler observed; `file` is the
output file before the call; the returned file is the output file after. -/
def trackedCall {E A : Type} (cfg : TrackerConfig) (env : Env)
    (ticks : List ℚ) (final_elapsed : ℚ) (f : Unit → Except E A)
    (file : List String) : CallResult E A × List String :=
  match (Tracker.init cfg).start env with
  | .error e => (.configFailure e, file)
  | .ok t0 =>
    let r := f ()
    match (t0.runTicks env ticks).stop env final_elapsed with
    | .error e => (.configFailure e, file)
    | .ok (tf, em) =>
      let file2 :=
        if cfg.save_to_file then
          persistRecord file
            (recordLine cfg.project_name (ticks.sum + final_elapsed)
              tf.energy_kwh em)
        else file
      (.completed r em, file2)

/-- Modelled from the spec: the tick schedule of a run of duration `D`
sampled every `T` seconds (spec §4.2) — one tick per full interval. -/
def tickSchedule (T D : ℚ) : List ℚ :=
  List.replicate (D / T).floor.toNat T

/-- Modelled from the spec: the last partial interval, always folded in by
the final synchronous sample of `stop()` (spec §4.2, §4.4). -/
def finalElapsed (T D : ℚ) : ℚ :=
  D - ((D / T).floor.toNat : ℚ) * T

/-- Modelled from the spec: the accumulator value at the end of a run of
duration `D` sampled every `T` seconds, starting from tracker state `t`
(spec §4.2, §4.4). -/
def totalEnergyOfRun (t : Tracker) (env : Env) (T D : ℚ) : ℚ :=
  ((t.runTicks env (tickSchedule T D)).tick env (finalElapsed T D)).energy_kwh

/-! Helper lemmas: a sampler tick changes only the energy accumulator. -/

@[simp] theorem tick_state (t : Tracker) (env : Env) (d : ℚ) :
    (t.tick env d).state = t.state := rfl

@[simp] theorem tick_location (t : Tracker) (env : Env) (d : ℚ) :
    (t.tick env d).location = t.location := rfl

@[simp] theorem tick_factor (t : Tracker) (env : Env) (d : ℚ) :
    (t.tick env d).factor = t.factor := rfl

@[simp] theorem tick_http_calls (t : Tracker) (env : Env) (d : ℚ) :
    (t.tick env d).http_calls = t.http_calls := rfl

@[simp] theorem tick_gpu_checks (t : Tracker) (env : Env) (d : ℚ) :
    (t.tick env d).gpu_availability_checks = t.gpu_availability_checks := rfl

@[simp] theorem tick_gpu_available (t : Tracker) (env : Env) (d : ℚ) :
    (t.tick env d).gpu_available = t.gpu_available := rfl

@[simp] theorem tick_energy (t : Tracker) (env : Env) (d : ℚ) :
    (t.tick env d).energy_kwh =
      t.energy_kwh + env.combined_power_w t.gpu_available * d / 3600000 := rfl

/-! Helper lemmas: the sampler loop changes only the energy accumulator,
and the total increment is the combined power integrated over the actual
elapsed time. -/

@[simp] theorem runTicks_state (env : Env) (ds : List ℚ) (t : Tracker) :
    (t.runTicks env ds).state = t.state := by
  induction ds generalizing t with
  | nil => rfl
  | cons d ds ih => simp [Tracker.runTicks, ih]

@[simp] theorem runTicks_location (env : Env) (ds : List ℚ) (t : Tracker) :
    (t.runTicks env ds).location = t.location := by
  induction ds generalizing t with
  | nil => rfl
  | cons d ds ih => simp [Tracker.runTicks, ih]

@[simp] theorem runTicks_factor (env : Env) (ds : List ℚ) (t : Tracker) :
    (t.runTicks env ds).factor = t.factor := by
  induction ds generalizing t with
  | nil => rfl
  | cons d ds ih => simp [Tracker.runTicks, ih]

@[simp] theorem runTicks_http_calls (env : Env) (ds : List ℚ) (t : Tracker) :
    (t.runTicks env ds).http_calls = t.http_calls := by
  induction ds generalizing t with
  | nil => rfl
  | cons d ds ih => simp [Tracker.runTicks, ih]

@[simp] theorem runTicks_gpu_checks (env : Env) (ds : List ℚ) (t : Tracker) :
    (t.runTicks env ds).gpu_availability_checks = t.gpu_availability_checks := by
  induction ds generalizing t with
  | nil => rfl
  | cons d ds ih => simp [Tracker.runTicks, ih]

@[simp] theorem runTicks_gpu_available (env : Env) (ds : List ℚ) (t : Tracker) :
    (t.runTicks env ds).gpu_available = t.gpu_available := by
  induction ds generalizing t with
  | nil => rfl
  | cons d ds ih => simp [Tracker.runTicks, ih]

theorem runTicks_energy (env : Env) (ds : List ℚ) (t : Tracker) :
    (t.runTicks env ds).energy_kwh =
      t.energy_kwh + env.combined_power_w t.gpu_available * ds.sum / 3600000 := by
  induction ds generalizing t with
  | nil => simp [Tracker.runTicks]
  | cons d ds ih =>
    rw [Tracker.runTicks, ih]
    simp only [tick_energy, tick_gpu_available, List.sum_cons]
    ring

/-! Helper lemmas: elimination of a successful `start()`, and evaluation of
`stop()` from the `RUNNING` state. -/

theorem start_ok_elim (t t' : Tracker) (env : Env) (h : t.start env = .ok t') :
    t.state = .idle ∧ ∃ loc calls fo,
      resolveLocation t.cfg env = .ok (loc, calls) ∧
      lookupFactor env loc = .ok fo ∧
      t' = { t with
             state := .running
             location := some loc
             factor := some fo
             http_calls := t.http_calls + calls
             gpu_availability_checks := t.gpu_availability_checks + 1
             gpu_available := env.gpu_available } := by
  unfold Tracker.start at h
  split at h
  · split at h
    · exact absurd h (by simp)
    · split at h
      · exact absurd h (by simp)
      · simp only [Except.ok.injEq] at h
        subst h
        exact ⟨by assumption, _, _, _, by assumption, by assumption, rfl⟩
  · exact absurd h (by simp)
  · exact absurd h (by simp)

theorem start_state (t t' : Tracker) (env : Env) (h : t.start env = .ok t') :
    t'.state = .running := by
  obtain ⟨-, loc, calls, fo, -, -, ht'⟩ := start_ok_elim t t' env h
  subst ht'
  rfl

theorem start_gpu_checks (t t' : Tracker) (env : Env)
    (h : t.start env = .ok t') :
    t'.gpu_availability_checks = t.gpu_availability_checks + 1 := by
  obtain ⟨-, loc, calls, fo, -, -, ht'⟩ := start_ok_elim t t' env h
  subst ht'
  rfl

theorem stop_of_running (t : Tracker) (env : Env) (e : ℚ)
    (h : t.state = .running) :
    t.stop env e =
      .ok ({ t.tick env e with state := .stopped },
           stopEmissions (t.tick env e)) := by
  unfold Tracker.stop
  rw [h]

theorem run_ok (t0 : Tracker) (env : Env) (ticks : List ℚ) (e : ℚ)
    (h : t0.state = .running) :
    (t0.runTicks env ticks).stop env e =
      .ok ({ (t0.runTicks env ticks).tick env e with state := .stopped },
           stopEmissions ((t0.runTicks env ticks).tick env e)) := by
  apply stop_of_running
  simp [h]

/-- Helper: the tracker produced by a successful `start()` from a fresh
tracker, given the resolver's outcome. -/
def startedTracker (cfg : TrackerConfig) (env : Env) (loc : Location)
    (fo : Option ℚ) (calls : Nat) : Tracker :=
  { Tracker.init cfg with
    state := .running
    location := some loc
    factor := some fo
    http_calls := calls
    gpu_availability_checks := 1
    gpu_available := env.gpu_available }

theorem start_eval (cfg : TrackerConfig) (env : Env) (loc : Location)
    (calls : Nat) (fo : Option ℚ)
    (hres : resolveLocation cfg env = .ok (loc, calls))
    (hfac : lookupFactor env loc = .ok fo) :
    (Tracker.init cfg).start env =
      .ok (startedTracker cfg env loc fo calls) := by
  simp [Tracker.start, Tracker.init, startedTracker, hres, hfac]

/-- Helper: a started run always completes, and when the factor was resolved
the returned CO2 is the final total energy times that factor; the run issues
no further HTTP requests and no further GPU-availability checks after
`start()`. -/
theorem run_complete (t0 : Tracker) (env : Env) (ticks : List ℚ) (e : ℚ)
    (f : ℚ) (hs : t0.state = .running) (hf : t0.factor = some (some f)) :
    ∃ tf, (t0.runTicks env ticks).stop env e =
        .ok (tf, some (tf.energy_kwh * f)) ∧
      tf.http_calls = t0.http_calls ∧
      tf.gpu_availability_checks = t0.gpu_availability_checks ∧
      tf.location = t0.location ∧ tf.factor = t0.factor := by
  refine ⟨{ (t0.runTicks env ticks).tick env e with state := .stopped },
    ?_, by simp, by simp, by simp, by simp⟩
  rw [run_ok t0 env ticks e hs]
  simp [stopEmissions, hf]

/-! Concrete data used by the witnesses: a two-GPU private-infrastructure
host (no recognized cloud), a Canada energy-mix table entry, and the
tracker configurations exercised by the test-suite. -/

/-- Witness configuration: online tracking, no file output (the
`CO2Tracker(measure_power_secs=1, save_to_file=False)` of the tests). -/
def cfgOnlineW : TrackerConfig :=
  { measure_power_secs := 1
    save_to_file := false
    output_dir := "."
    project_name := "project_foo"
    offline := false
    country := none }

/-- Witness configuration: the decorator with file output
(`track_co2(project_name="project_foo")`). -/
def cfgDecoratorW : TrackerConfig :=
  { measure_power_secs := 1
    save_to_file := true
    output_dir := "."
    project_name := "project_foo"
    offline := false
    country := none }

/-- Witness configuration: offline with `country="Canada"`
(`track_co2(offline=True, country="Canada", project_name="project_foo")`). -/
def cfgOfflineCanadaW : TrackerConfig :=
  { measure_power_secs := 1
    save_to_file := true
    output_dir := "."
    project_name := "project_foo"
    offline := true
    country := some "Canada" }

/-- Witness configuration: offline with no country
(`track_co2(offline=True)`). -/
def cfgOfflineNoCountryW : TrackerConfig :=
  { measure_power_secs := 1
    save_to_file := true
    output_dir := "."
    project_name := "project_foo"
    offline := true
    country := none }

/-- Witness environment: private infrastructure (no cloud), geo-IP resolving
to Canada, GPU telemetry available, constant component draws, Canada
energy-mix factor 3/20 kg per kWh. -/
def envCanadaW : Env :=
  { cloud := { provider := none, region := none }
    geo := .ok { country := "Canada", region := some "ontario" }
    gpu_available := true
    cpu_power_w := 10
    gpu_power_w := 30
    ram_power_w := 5
    cloud_emissions := fun _ _ => none
    country_energy_mix := fun c => if c = "Canada" then some (3/20) else none }

/-- Witness environment: like `envCanadaW` but the geo-IP lookup raises a
network timeout. -/
def envTimeoutW : Env :=
  { cloud := { provider := none, region := none }
    geo := .error .timeout
    gpu_available := true
    cpu_power_w := 10
    gpu_power_w := 30
    ram_power_w := 5
    cloud_emissions := fun _ _ => none
    country_energy_mix := fun c => if c = "Canada" then some (3/20) else none }

/-- Witness: the tracker state right after a successful online `start()`
against `envCanadaW` under `cfgOnlineW`. -/
def startedOnlineW : Tracker :=
  { cfg := cfgOnlineW
    state := .running
    location := some (.inCountry "Canada")
    factor := some (some (3/20))
    energy_kwh := 0
    http_calls := 1
    gpu_availability_checks := 1
    gpu_available := true }

/-! The claims. -/

/-- C1: for every completed run, `stop()` returns the total CO2 mass as the
product of the accumulated total energy in kWh (final partial tick included)
and the emissions factor resolved at `start()`. -/
theorem stop_returns_co2_product (cfg : TrackerConfig) (env : Env)
    (ticks : List ℚ) (e : ℚ) (t0 : Tracker) (f : ℚ)
    (hstart : (Tracker.init cfg).start env = .ok t0)
    (hf : t0.factor = some (some f)) :
    ∃ tf, (t0.runTicks env ticks).stop env e =
      .ok (tf, some (tf.energy_kwh * f)) := by
  obtain ⟨tf, hstop, -⟩ :=
    run_complete t0 env ticks e f (start_state _ _ _ hstart) hf
  exact ⟨tf, hstop⟩

/-- C1 witness: a concrete online Canada run with two ticks. -/
theorem stop_returns_co2_product_witness :
    ∃ tf, (startedOnlineW.runTicks envCanadaW [1, 1]).stop envCanadaW (1/2) =
      .ok (tf, some (tf.energy_kwh * (3/20))) :=
  stop_returns_co2_product cfgOnlineW envCanadaW [1, 1] (1/2) startedOnlineW
    (3/20) rfl rfl

/-- C2: a network timeout or connection error raised by the geo-IP lookup
during `start()` is caught: `start()` succeeds, tracking continues in
degraded mode, and `stop()` completes the run without raising. -/
theorem geo_failure_run_completes (cfg : TrackerConfig) (env : Env)
    (ticks : List ℚ) (e : ℚ) (err : NetErr)
    (hcloud : onRecognizedCloud env.cloud = none)
    (hoff : cfg.offline = false)
    (hgeo : env.geo = .error err) :
    ∃ t0 tf em, (Tracker.init cfg).start env = .ok t0 ∧
      (t0.runTicks env ticks).stop env e = .ok (tf, em) := by
  have hres : resolveLocation cfg env = .ok (.unknown, 1) := by
    simp [resolveLocation, hcloud, hoff, hgeo]
  have hstart := start_eval cfg env .unknown 1 none hres rfl
  exact ⟨_, _, _, hstart, run_ok _ env ticks e rfl⟩

/-- C2 witness: a concrete run whose geo-IP lookup times out. -/
theorem geo_failure_run_completes_witness :
    ∃ t0 tf em, (Tracker.init cfgOnlineW).start envTimeoutW = .ok t0 ∧
      (t0.runTicks envTimeoutW [1]).stop envTimeoutW 1 = .ok (tf, em) :=
  geo_failure_run_completes cfgOnlineW envTimeoutW [1] 1 .timeout rfl rfl rfl

/-- C3: a tracker configured `offline=True` with no country code fails fast:
`start()` raises the configuration error, and a decorated call surfaces that
failure with the wrapped function never run and the output file untouched
(nothing is tracked).  The run is on private infrastructure (the
cloud-metadata probe, which has priority, found no cloud). -/
theorem offline_no_country_fails_fast {E A : Type} (cfg : TrackerConfig)
    (env : Env) (ticks : List ℚ) (e : ℚ) (f : Unit → Except E A)
    (file : List String)
    (hoff : cfg.offline = true) (hc : cfg.country = none)
    (hcloud : onRecognizedCloud env.cloud = none) :
    (Tracker.init cfg).start env = .error .missingCountry ∧
    trackedCall cfg env ticks e f file =
      (.configFailure .missingCountry, file) := by
  have hres : resolveLocation cfg env = .error .missingCountry := by
    simp [resolveLocation, hcloud, hoff, hc]
  have hstart : (Tracker.init cfg).start env = .error .missingCountry := by
    simp [Tracker.start, Tracker.init, hres]
  exact ⟨hstart, by simp [trackedCall, hstart]⟩

/-- C3 witness: the decorated `dummy_train_model` of the tests (returns 42)
under `track_co2(offline=True)`. -/
theorem offline_no_country_fails_fast_witness :
    (Tracker.init cfgOfflineNoCountryW).start envCanadaW =
      .error .missingCountry ∧
    trackedCall cfgOfflineNoCountryW envCanadaW [1] 1
      (fun _ => (.ok 42 : Except Unit Nat)) [] =
      (.configFailure .missingCountry, []) :=
  offline_no_country_fails_fast cfgOfflineNoCountryW envCanadaW [1] 1
    (fun _ => (.ok 42 : Except Unit Nat)) [] rfl rfl rfl

/-- C4: an offline run with `country="Canada"` and no recognized cloud
resolves the Canada country-level energy-mix factor, computes the result as
total energy times that factor, and issues zero HTTP requests during the
entire run. -/
theorem offline_canada_zero_http (cfg : TrackerConfig) (env : Env)
    (ticks : List ℚ) (e : ℚ) (fCA : ℚ)
    (hoff : cfg.offline = true) (hc : cfg.country = some "Canada")
    (hcloud : onRecognizedCloud env.cloud = none)
    (hmix : env.country_energy_mix "Canada" = some fCA) :
    ∃ t0 tf, (Tracker.init cfg).start env = .ok t0 ∧
      t0.location = some (.inCountry "Canada") ∧ t0.http_calls = 0 ∧
      (t0.runTicks env ticks).stop env e =
        .ok (tf, some (tf.energy_kwh * fCA)) ∧
      tf.http_calls = 0 := by
  have hres : resolveLocation cfg env = .ok (.inCountry "Canada", 0) := by
    simp [resolveLocation, hcloud, hoff, hc]
  have hfac : lookupFactor env (.inCountry "Canada") = .ok (some fCA) := by
    simp [lookupFactor, hmix]
  have hstart := start_eval cfg env (.inCountry "Canada") 0 (some fCA) hres hfac
  obtain ⟨tf, hstop, hhttp, -⟩ :=
    run_complete (startedTracker cfg env (.inCountry "Canada") (some fCA) 0)
      env ticks e fCA rfl rfl
  exact ⟨_, tf, hstart, rfl, rfl, hstop, hhttp.trans rfl⟩

/-- C4 witness: the offline Canada decorator run of the tests. -/
theorem offline_canada_zero_http_witness :
    ∃ t0 tf, (Tracker.init cfgOfflineCanadaW).start envCanadaW = .ok t0 ∧
      t0.location = some (.inCountry "Canada") ∧ t0.http_calls = 0 ∧
      (t0.runTicks envCanadaW [1]).stop envCanadaW 1 =
        .ok (tf, some (tf.energy_kwh * (3/20))) ∧
      tf.http_calls = 0 :=
  offline_canada_zero_http cfgOfflineCanadaW envCanadaW [1] 1 (3/20)
    rfl rfl rfl rfl

/-! Helper lemmas for the decorator claims. -/

theorem persistRecord_eq (file : List String) (rec : String) :
    persistRecord file rec =
      (if file = [] then [headerLine] else file) ++ [rec] := by
  cases file <;> simp [persistRecord]

/-- Helper: a decorated call whose `start()` succeeds completes the run,
returns the wrapped function's own result unchanged, and appends exactly one
record line to the output file (preceded by the header when the file is
new), whatever that result is. -/
theorem trackedCall_completed {E A : Type} (cfg : TrackerConfig) (env : Env)
    (ticks : List ℚ) (e : ℚ) (f : Unit → Except E A) (file : List String)
    (t0 : Tracker) (hstart : (Tracker.init cfg).start env = .ok t0)
    (hsave : cfg.save_to_file = true) :
    ∃ em rec, trackedCall cfg env ticks e f file =
      (.completed (f ()) em,
       (if file = [] then [headerLine] else file) ++ [rec]) := by
  have hs : t0.state = .running := start_state _ _ _ hstart
  have hstop := run_ok t0 env ticks e hs
  refine ⟨stopEmissions ((t0.runTicks env ticks).tick env e),
    recordLine cfg.project_name (ticks.sum + e)
      ((t0.runTicks env ticks).tick env e).energy_kwh
      (stopEmissions ((t0.runTicks env ticks).tick env e)), ?_⟩
  simp only [trackedCall, hstart, hstop, hsave, if_true, persistRecord_eq]

/-- C5: the decorator returns a wrapped call with the wrapped function's own
return value unchanged, and each invocation appends exactly one new record
line to the output file (plus the header once, when the file is new). -/
theorem decorator_same_value_one_record {E A : Type} (cfg : TrackerConfig)
    (env : Env) (ticks : List ℚ) (e : ℚ) (f : Unit → Except E A)
    (file : List String) (t0 : Tracker)
    (hstart : (Tracker.init cfg).start env = .ok t0)
    (hsave : cfg.save_to_file = true) :
    ∃ em rec, trackedCall cfg env ticks e f file =
      (.completed (f ()) em,
       (if file = [] then [headerLine] else file) ++ [rec]) :=
  trackedCall_completed cfg env ticks e f file t0 hstart hsave

/-- C5 witness: wrapping a function that returns `42` still returns `42`,
and a fresh output file ends with header plus exactly one record line. -/
theorem decorator_same_value_one_record_witness :
    ∃ em rec, trackedCall cfgDecoratorW envCanadaW [1, 1] 1
        (fun _ => (.ok 42 : Except Unit Nat)) [] =
      (.completed (.ok 42) em, [headerLine] ++ [rec]) :=
  decorator_same_value_one_record cfgDecoratorW envCanadaW [1, 1] 1
    (fun _ => (.ok 42 : Except Unit Nat)) []
    (startedTracker cfgDecoratorW envCanadaW (.inCountry "Canada")
      (some (3/20)) 1) rfl rfl

/-- C6: when the decorated function raises, the original exception is
propagated unchanged to the caller, and the tracker still finalizes the run
and persists the record before the exception surfaces. -/
theorem decorator_propagates_exception {E A : Type} (cfg : TrackerConfig)
    (env : Env) (ticks : List ℚ) (e : ℚ) (ex : E) (file : List String)
    (t0 : Tracker) (hstart : (Tracker.init cfg).start env = .ok t0)
    (hsave : cfg.save_to_file = true) :
    ∃ em rec, trackedCall cfg env ticks e
        (fun _ => (.error ex : Except E A)) file =
      (.completed (.error ex) em,
       (if file = [] then [headerLine] else file) ++ [rec]) :=
  trackedCall_completed cfg env ticks e (fun _ => (.error ex : Except E A))
    file t0 hstart hsave

/-- C6 witness: a decorated function raising a concrete exception. -/
theorem decorator_propagates_exception_witness :
    ∃ em rec, trackedCall cfgDecoratorW envCanadaW [1] 1
        (fun _ => (.error "boom" : Except String Nat)) [headerLine] =
      (.completed (.error "boom") em, [headerLine] ++ [rec]) :=
  decorator_propagates_exception cfgDecoratorW envCanadaW [1] 1 "boom"
    [headerLine]
    (startedTracker cfgDecoratorW envCanadaW (.inCountry "Canada")
      (some (3/20)) 1) rfl rfl

/-- C7: the location and emissions factor are resolved exactly once at
`start()` and stay fixed for the run's lifetime: an online run issues exactly
one geo-IP HTTP request in total, and neither the sampler ticks nor `stop()`
change the resolved location, factor, or request count. -/
theorem resolution_once_and_fixed (cfg : TrackerConfig) (env : Env)
    (ticks : List ℚ) (e : ℚ) (g : GeoMetadata) (fG : ℚ)
    (hcloud : onRecognizedCloud env.cloud = none)
    (hoff : cfg.offline = false) (hgeo : env.geo = .ok g)
    (hmix : env.country_energy_mix g.country = some fG) :
    ∃ t0, (Tracker.init cfg).start env = .ok t0 ∧
      t0.http_calls = 1 ∧
      t0.location = some (.inCountry g.country) ∧
      t0.factor = some (some fG) ∧
      (t0.runTicks env ticks).location = t0.location ∧
      (t0.runTicks env ticks).factor = t0.factor ∧
      (t0.runTicks env ticks).http_calls = 1 ∧
      ∃ tf, (t0.runTicks env ticks).stop env e =
          .ok (tf, some (tf.energy_kwh * fG)) ∧
        tf.location = t0.location ∧ tf.factor = t0.factor ∧
        tf.http_calls = 1 := by
  have hres : resolveLocation cfg env = .ok (.inCountry g.country, 1) := by
    simp [resolveLocation, hcloud, hoff, hgeo]
  have hfac : lookupFactor env (.inCountry g.country) = .ok (some fG) := by
    simp [lookupFactor, hmix]
  have hstart := start_eval cfg env (.inCountry g.country) 1 (some fG) hres hfac
  obtain ⟨tf, hstop, hhttp, -, hloc, hfact⟩ :=
    run_complete (startedTracker cfg env (.inCountry g.country) (some fG) 1)
      env ticks e fG rfl rfl
  exact ⟨_, hstart, rfl, rfl, rfl, by simp, by simp, by simp [startedTracker],
    tf, hstop, hloc, hfact, hhttp.trans rfl⟩

/-- C7 witness: the online Canada run of the tests. -/
theorem resolution_once_and_fixed_witness :
    ∃ t0, (Tracker.init cfgOnlineW).start envCanadaW = .ok t0 ∧
      t0.http_calls = 1 ∧
      t0.location = some (.inCountry "Canada") ∧
      t0.factor = some (some (3/20)) ∧
      (t0.runTicks envCanadaW [1, 1]).location = t0.location ∧
      (t0.runTicks envCanadaW [1, 1]).factor = t0.factor ∧
      (t0.runTicks envCanadaW [1, 1]).http_calls = 1 ∧
      ∃ tf, (t0.runTicks envCanadaW [1, 1]).stop envCanadaW (1/2) =
          .ok (tf, some (tf.energy_kwh * (3/20))) ∧
        tf.location = t0.location ∧ tf.factor = t0.factor ∧
        tf.http_calls = 1 :=
  resolution_once_and_fixed cfgOnlineW envCanadaW [1, 1] (1/2)
    { country := "Canada", region := some "ontario" } (3/20) rfl rfl rfl rfl

/-- C9: GPU telemetry availability is checked exactly once, at `start()`, and
never again by the sampler ticks or by `stop()`. -/
theorem gpu_availability_checked_once (cfg : TrackerConfig) (env : Env)
    (ticks : List ℚ) (e : ℚ) (t0 : Tracker)
    (hstart : (Tracker.init cfg).start env = .ok t0) :
    t0.gpu_availability_checks = 1 ∧
    (t0.runTicks env ticks).gpu_availability_checks = 1 ∧
    ∀ tf em, (t0.runTicks env ticks).stop env e = .ok (tf, em) →
      tf.gpu_availability_checks = 1 := by
  have h1 : t0.gpu_availability_checks = 1 := by
    have h := start_gpu_checks _ _ _ hstart
    simpa [Tracker.init] using h
  have hs : (t0.runTicks env ticks).state = .running := by
    simp [start_state _ _ _ hstart]
  refine ⟨h1, by simp [h1], ?_⟩
  intro tf em hstop
  rw [stop_of_running _ _ _ hs] at hstop
  simp only [Except.ok.injEq, Prod.mk.injEq] at hstop
  obtain ⟨h2, -⟩ := hstop
  rw [← h2]
  simp [h1]

/-- C9 witness: the two-GPU private-infrastructure Canada run. -/
theorem gpu_availability_checked_once_witness :
    startedOnlineW.gpu_availability_checks = 1 ∧
    (startedOnlineW.runTicks envCanadaW [1, 1]).gpu_availability_checks = 1 ∧
    ∀ tf em, (startedOnlineW.runTicks envCanadaW [1, 1]).stop envCanadaW
        (1/2) = .ok (tf, em) →
      tf.gpu_availability_checks = 1 :=
  gpu_availability_checked_once cfgOnlineW envCanadaW [1, 1] (1/2)
    startedOnlineW rfl

/-- Helper: because the sampler integrates over actual elapsed wall-clock
time, the accumulated energy of a run of duration `D` equals the combined
power times `D` (converted to kWh), for every sampling interval `T`. -/
theorem totalEnergyOfRun_formula (t : Tracker) (env : Env) (T D : ℚ) :
    totalEnergyOfRun t env T D =
      t.energy_kwh + env.combined_power_w t.gpu_available * D / 3600000 := by
  unfold totalEnergyOfRun
  rw [tick_energy, runTicks_energy]
  simp only [runTicks_gpu_available, tickSchedule, finalElapsed,
    List.sum_replicate, nsmul_eq_mul]
  ring

/-- C8: the energy accumulator is monotonically non-decreasing across the
run (each tick with non-negative elapsed time can only grow it), and for
every sampling interval `T > 0` the total energy of a run on a host drawing
positive combined power is strictly increasing in the run duration `D`. -/
theorem energy_accumulation_monotone (t : Tracker) (env : Env)
    (T D1 D2 d : ℚ) (hP : 0 < env.combined_power_w t.gpu_available)
    (hT : 0 < T) (hd : 0 ≤ d) (hD : D1 < D2) :
    t.energy_kwh ≤ (t.tick env d).energy_kwh ∧
    totalEnergyOfRun t env T D1 < totalEnergyOfRun t env T D2 := by
  constructor
  · rw [tick_energy]
    have h0 : 0 ≤ env.combined_power_w t.gpu_available * d :=
      mul_nonneg hP.le hd
    linarith
  · rw [totalEnergyOfRun_formula, totalEnergyOfRun_formula]
    have h1 : env.combined_power_w t.gpu_available * D1 <
        env.combined_power_w t.gpu_available * D2 :=
      mul_lt_mul_of_pos_left hD hP
    linarith

/-- C8 witness: the two-GPU Canada host (combined draw 45 W), interval 1 s,
durations 2 s and 3 s. -/
theorem energy_accumulation_monotone_witness :
    startedOnlineW.energy_kwh ≤
      (startedOnlineW.tick envCanadaW 1).energy_kwh ∧
    totalEnergyOfRun startedOnlineW envCanadaW 1 2 <
      totalEnergyOfRun startedOnlineW envCanadaW 1 3 :=
  energy_accumulation_monotone startedOnlineW envCanadaW 1 2 3 1
    (by norm_num [Env.combined_power_w, envCanadaW, startedOnlineW])
    (by norm_num) (by norm_num) (by norm_num)

end CO2
